import Mathlib

set_option maxRecDepth 8192

/-!
Verification of the Agent Session Orchestrator (plane/agent) against its
specification.  The Python sources under `apps/api/plane/agent/` are shallowly
embedded below: Django model rows become Lean structures, each database write
performed by the orchestrator becomes a pure state-transforming function, and
raised exceptions become `Except` results.  Timestamps are modelled as natural
numbers (seconds).
-/

namespace ZenithAgent

/-- Status values of `AgentSession.Status` from `plane/agent/models/session.py`. -/
inductive Status where
  | pending
  | provisioning
  | running
  | streaming
  | completed
  | failed
  | cancelled
  | timedOut
deriving Repr, DecidableEq

/-- The stored string value of each status (`models.TextChoices` values). -/
def statusStr : Status → String
  | .pending => "pending"
  | .provisioning => "provisioning"
  | .running => "running"
  | .streaming => "streaming"
  | .completed => "completed"
  | .failed => "failed"
  | .cancelled => "cancelled"
  | .timedOut => "timed_out"

/-- Terminal statuses (spec glossary: Completed, Failed, Cancelled, TimedOut). -/
def isTerminal : Status → Bool
  | .completed | .failed | .cancelled | .timedOut => true
  | _ => false

/-- The `active_statuses` set used by both the admission check
(`views/invoke.py` lines 110-119) and the cancel guard (lines 190-195):
Pending, Provisioning, Running, Streaming. -/
def statusIsActive : Status → Bool
  | .pending | .provisioning | .running | .streaming => true
  | _ => false

/-- One `AgentSession` row (`plane/agent/models/session.py`).  Foreign keys
are carried as their referenced identifiers; datetimes are `Option Nat`
(null / seconds); the decimal cost column is modelled in fixed-point. -/
structure Session where
  id : String
  workspace : String
  project : String
  issue : String
  triggeredBy : String
  triggerComment : Option String
  providerSlug : String
  variantSlug : String
  modelId : String
  skillTrigger : Option String
  commentText : String
  containerId : Option String
  status : Status
  startedAt : Option Nat
  completedAt : Option Nat
  timeoutMinutes : Nat
  responseText : Option String
  responseHtml : Option String
  branchName : Option String
  pullRequestUrl : Option String
  errorMessage : Option String
  tokensUsed : Nat
  estimatedCostUsd : Nat
  durationSeconds : Option Nat
  createdAt : Nat
  updatedAt : Nat
deriving Repr, DecidableEq

/-- Python exceptions that the embedded code can raise.
`invalidToken` stands for `cryptography.fernet.InvalidToken`, which the
library raises with no arguments, so its `str()` is empty. -/
inductive PyErr where
  | invalidToken
  | otherErr (msg : String)
deriving Repr, DecidableEq

/-- The `str(e)` text of an exception: `InvalidToken` is raised bare (empty message). -/
def pyErrMessage : PyErr → String
  | .invalidToken => ""
  | .otherErr m => m

/-- The contract of the Fernet authenticated symmetric cipher under one fixed
key (the key derived from `SECRET_KEY` in `utils/encryption.py`):
`encB` produces a token, `decB` recovers the plaintext of every produced
token and returns `none` on any string that is not a valid token under this
key (corrupt ciphertext, or a token minted under a different key, fails the
HMAC check).  Fernet tokens are never empty (they carry a version byte). -/
structure FernetSpec where
  encB : String → String
  decB : String → Option String
  dec_enc : ∀ t : String, decB (encB t) = some t
  encB_ne : ∀ t : String, encB t ≠ ""

/-- Function `encrypt_token` from `plane/agent/utils/encryption.py`: empty input is
returned unchanged (identity case); otherwise the Fernet ciphertext. -/
def encrypt_token (F : FernetSpec) (token : String) : String :=
  if token = "" then "" else F.encB token

/-- Function `decrypt_token` from `plane/agent/utils/encryption.py`: empty input is
returned unchanged; otherwise Fernet decryption, which raises
`InvalidToken` when verification fails (modelled as `Except.error`). -/
def decrypt_token (F : FernetSpec) (encrypted : String) : Except PyErr String :=
  if encrypted = "" then .ok ""
  else
    match F.decB encrypted with
    | some t => .ok t
    | none => .error .invalidToken

/-- A concrete instance of the Fernet contract, used to evaluate the
encryption theorems on explicit inputs: the "ciphertext" is the plaintext
tagged with a marker character. -/
def fernetDemo : FernetSpec where
  encB t := String.mk ('c' :: t.data)
  decB s :=
    match s.data with
    | 'c' :: rest => some (String.mk rest)
    | _ => none
  dec_enc t := by
    cases t with
    | mk l => rfl
  encB_ne t := by
    intro h
    have hdata : ('c' :: t.data) = "".data := congrArg String.data h
    simp at hdata

/-- Python truthiness of `request.data.get(...)`: `None` and `""` are falsy. -/
def pyTruthy (o : Option String) : Bool :=
  o.getD "" ≠ ""

/-- One `WorkspaceAgentConfig` row (`plane/agent/models/config.py`);
foreign keys carried as slugs. -/
structure WorkspaceAgentConfigRec where
  workspaceSlug : String
  providerSlug : String
  isEnabled : Bool
  oauthTokenEncrypted : String
  maxConcurrentSessions : Nat
  timeoutMinutes : Nat
deriving Repr, DecidableEq

/-- The instance-level lookups consulted by `_get_llm_token`
(`plane/agent/tasks.py` lines 92-106): the `LLM_API_KEY` value from
`get_configuration_value` (an exception inside the `try` is swallowed, which
behaves like the empty string), and `os.environ.get` with default `""`. -/
structure LlmEnv where
  llmApiKey : String
  envVar : String → String

/-- Function `_get_llm_token` from `plane/agent/tasks.py` (lines 78-108).  Priority:
(1) the workspace config's encrypted token, decrypted — a decryption failure
propagates (there is no `try` around `_decrypt_token`); (2) the instance
`LLM_API_KEY`; (3) a provider-keyed environment variable; otherwise `""`. -/
def get_llm_token (F : FernetSpec) (providerSlug : String)
    (config : Option WorkspaceAgentConfigRec) (env : LlmEnv) :
    Except PyErr String :=
  let fallback : String :=
    if env.llmApiKey ≠ "" then env.llmApiKey
    else if providerSlug = "claude" then env.envVar "ANTHROPIC_API_KEY"
    else if providerSlug = "gemini" then env.envVar "GOOGLE_API_KEY"
    else ""
  match config with
  | some c =>
      if c.oauthTokenEncrypted ≠ "" then
        match decrypt_token F c.oauthTokenEncrypted with
        | .error e => .error e
        | .ok token => if token ≠ "" then .ok token else .ok fallback
      else .ok fallback
  | none => .ok fallback

/-- Strategy selection in `run_agent_task` (`tasks.py` line 256): the Direct
(no-Docker) path runs iff the provider is `"claude"` and a token resolved. -/
def usesDirectStrategy (providerSlug llmToken : String) : Bool :=
  providerSlug = "claude" && llmToken ≠ ""

/-- Python `html.escape(s)` followed by `.replace("\n", "<br/>")` as in
`tasks.py` lines 278 and 348. -/
def renderResponseHtml (s : String) : String :=
  ((((((s.replace "&" "&amp;").replace "<" "&lt;").replace ">" "&gt;").replace
    "\x22" "&quot;").replace "\x27" "&#x27;").replace "\n" "<br/>")

/-- The provisioning save (`tasks.py` lines 202-204):
`status = PROVISIONING; started_at = now; save(update_fields=["status",
"started_at"])`.  Note `completed_at` is not among the updated fields. -/
def saveProvisioning (s : Session) (now : Nat) : Session :=
  { s with status := .provisioning, startedAt := some now }

/-- The Direct-strategy running save (`tasks.py` lines 259-260). -/
def saveRunningDirect (s : Session) : Session :=
  { s with status := .running }

/-- The Direct-strategy streaming save (`tasks.py` lines 263-264). -/
def saveStreamingDirect (s : Session) : Session :=
  { s with status := .streaming }

/-- The `duration_seconds` stamping (`tasks.py` lines 279-282 and 351-354):
set only when `started_at` is non-null. -/
def stampDuration (s : Session) (now : Nat) : Option Nat :=
  match s.startedAt with
  | some st => some (now - st)
  | none => s.durationSeconds

/-- The Direct-strategy success finalization (`tasks.py` lines 275-283):
an unconditional `status = COMPLETED`, `completed_at = now`, response
fields, then a full `save()`.  There is no guard on the current status. -/
def finalizeDirectSuccess (s : Session) (now : Nat) (fullResponse : String) :
    Session :=
  { s with
    status := .completed
    completedAt := some now
    responseText := some fullResponse
    responseHtml := some (renderResponseHtml fullResponse)
    durationSeconds := stampDuration s now }

/-- The sandbox-strategy container-start save (`tasks.py` lines 317-319):
`container_id = container.id; status = RUNNING`. -/
def saveContainerStarted (s : Session) (cid : String) : Session :=
  { s with containerId := some cid, status := .running }

/-- The sandbox-strategy streaming save (`tasks.py` lines 322-323). -/
def saveStreamingSandbox (s : Session) : Session :=
  { s with status := .streaming }

/-- The `PR_URL=` / `BRANCH=` trailer scan over the container output
(`tasks.py` lines 334-340); a later matching line overwrites an earlier one;
`split("=", 1)[1].strip()` is the trimmed remainder after the marker. -/
def parseTrailer (full : String) : Option String × Option String :=
  (full.splitOn "\n").foldl
    (fun acc line =>
      if line.startsWith "PR_URL=" then (some ((line.drop 7).trim), acc.2)
      else if line.startsWith "BRANCH=" then (acc.1, some ((line.drop 7).trim))
      else acc)
    (none, none)

/-- The sandbox-strategy finalization (`tasks.py` lines 342-357): status from
the exit code, trailer-derived result fields, branch default
`agent/{session.id}`, error message naming a non-zero exit code, then a full
`save()`.  `container_id` is not modified. -/
def finalizeSandbox (s : Session) (now : Nat) (exitCode : Int)
    (fullResponse : String) : Session :=
  let pr := (parseTrailer fullResponse).1
  let br := (parseTrailer fullResponse).2
  { s with
    status := if exitCode = 0 then .completed else .failed
    completedAt := some now
    responseText := some fullResponse
    responseHtml := some (renderResponseHtml fullResponse)
    pullRequestUrl := pr
    branchName := some (br.getD ("agent/" ++ s.id))
    durationSeconds := stampDuration s now
    errorMessage :=
      if exitCode ≠ 0 then some ("Container exited with code " ++ toString exitCode)
      else s.errorMessage }

/-- The top-level failure handler (`tasks.py` lines 366-375): `status =
FAILED; error_message = str(e)[:1000]; completed_at = now;
save(update_fields=["status", "error_message", "completed_at"])`. -/
def finalizeFailure (s : Session) (now : Nat) (e : PyErr) : Session :=
  { s with
    status := .failed
    errorMessage := some ((pyErrMessage e).take 1000)
    completedAt := some now }

/-- The chunks published by the failure handler (`tasks.py` lines 376-377):
an `error` chunk carrying `str(e)[:500]`, then the `done` sentinel. -/
def failureChunks (e : PyErr) : List (String × String) :=
  [("error", (pyErrMessage e).take 500), ("done", "")]

/-- The cancel endpoint error (HTTP 400 when the session is not active). -/
inductive CancelError where
  | alreadyTerminal
deriving Repr, DecidableEq

/-- Endpoint `AgentSessionCancelEndpoint.post` (`views/invoke.py` lines 183-219):
reject with 400 unless the status is in the active set; otherwise kill the
container best-effort (no field change) and save `status = CANCELLED`,
`completed_at = now`.  `container_id` is not cleared. -/
def cancelPost (s : Session) (now : Nat) : Except CancelError Session :=
  if statusIsActive s.status then
    .ok { s with status := .cancelled, completedAt := some now }
  else
    .error .alreadyTerminal

/-- A rendered JSON field value in a serialized response. -/
inductive JsonVal where
  | str (v : String)
  | num (v : Nat)
  | null
deriving Repr, DecidableEq

/-- Render a nullable string column. -/
def jsonOptStr : Option String → JsonVal
  | none => .null
  | some v => .str v

/-- Render a nullable integer/datetime column. -/
def jsonOptNat : Option Nat → JsonVal
  | none => .null
  | some v => .num v

/-- Serializer `AgentSessionSerializer` (`plane/agent/serializers/session.py`): the
exact `fields` list, in order.  `read_only_fields` only blocks writes; every
listed field — `container_id` included — appears in the serialized output. -/
def serializeAgentSession (s : Session) : List (String × JsonVal) :=
  [("id", .str s.id),
   ("workspace", .str s.workspace),
   ("project", .str s.project),
   ("issue", .str s.issue),
   ("triggered_by", .str s.triggeredBy),
   ("trigger_comment", jsonOptStr s.triggerComment),
   ("provider_slug", .str s.providerSlug),
   ("variant_slug", .str s.variantSlug),
   ("model_id", .str s.modelId),
   ("skill_trigger", jsonOptStr s.skillTrigger),
   ("comment_text", .str s.commentText),
   ("container_id", jsonOptStr s.containerId),
   ("status", .str (statusStr s.status)),
   ("started_at", jsonOptNat s.startedAt),
   ("completed_at", jsonOptNat s.completedAt),
   ("timeout_minutes", .num s.timeoutMinutes),
   ("response_text", jsonOptStr s.responseText),
   ("response_html", jsonOptStr s.responseHtml),
   ("branch_name", jsonOptStr s.branchName),
   ("pull_request_url", jsonOptStr s.pullRequestUrl),
   ("error_message", jsonOptStr s.errorMessage),
   ("tokens_used", .num s.tokensUsed),
   ("estimated_cost_usd", .num s.estimatedCostUsd),
   ("duration_seconds", jsonOptNat s.durationSeconds),
   ("created_at", .num s.createdAt),
   ("updated_at", .num s.updatedAt)]

/-- One `AgentProvider` row (`plane/agent/models/provider.py`). -/
structure AgentProviderRec where
  slug : String
  isEnabled : Bool
  cliTool : String
  dockerImage : String
deriving Repr, DecidableEq

/-- One `AgentProviderVariant` row (`plane/agent/models/provider.py`);
the provider foreign key is carried as the provider's unique slug. -/
structure AgentProviderVariantRec where
  providerSlug : String
  slug : String
  modelId : String
  isDefault : Bool
  isEnabled : Bool
deriving Repr, DecidableEq

/-- The relational store seen by the invoke endpoint.  Lists stand for
tables in queryset order (variants in `sort_order` order, so `.first()` is
`head?` of the filtered list); `.get(...)` lookups on uniquely-constrained
columns are `find?`. -/
structure Db where
  providers : List AgentProviderRec
  variants : List AgentProviderVariantRec
  configs : List WorkspaceAgentConfigRec
  sessions : List Session
deriving Repr

/-- The request body of `AgentInvokeEndpoint.post`; absent keys are `none`. -/
structure InvokeRequest where
  providerSlug : Option String
  projectId : Option String
  issueId : Option String
  variantSlug : Option String
  commentId : Option String
  skillTrigger : Option String
  commentText : Option String
deriving Repr, DecidableEq

/-- The error responses of `AgentInvokeEndpoint.post`
(`views/invoke.py` lines 42-127). -/
inductive InvokeError where
  | missingFields
  | providerNotFound
  | variantNotFound
  | noDefaultVariant
  | notConfigured
  | tokenNotConfigured
  | admissionDenied
deriving Repr, DecidableEq

/-- The HTTP status code attached to each invoke error response. -/
def invokeHttpStatus : InvokeError → Nat
  | .missingFields => 400
  | .providerNotFound => 404
  | .variantNotFound => 404
  | .noDefaultVariant => 404
  | .notConfigured => 400
  | .tokenNotConfigured => 400
  | .admissionDenied => 429

/-- Outcome of `AgentInvokeEndpoint.post`: a 201 with the created session,
or an error response. -/
inductive InvokeResult where
  | created (s : Session)
  | err (e : InvokeError)
deriving Repr, DecidableEq

/-- The `active_sessions_count` query (`views/invoke.py` lines 110-119):
sessions of this workspace and provider slug whose status is in the active
set. -/
def activeSessionsCount (db : Db) (ws providerSlug : String) : Nat :=
  (db.sessions.filter
    (fun s => s.workspace = ws ∧ s.providerSlug = providerSlug
      ∧ statusIsActive s.status)).length

/-- Creation call `AgentSession.objects.create(...)` (`views/invoke.py` lines 130-143):
the fields passed explicitly, plus the model's column defaults for the
rest (`container_id` null, timestamps null, counters zero). -/
def newSession (ws : String) (req : InvokeRequest)
    (variant : AgentProviderVariantRec) (config : WorkspaceAgentConfigRec)
    (user newId : String) (now : Nat) : Session :=
  { id := newId
    workspace := ws
    project := req.projectId.getD ""
    issue := req.issueId.getD ""
    triggeredBy := user
    triggerComment := req.commentId
    providerSlug := variant.providerSlug
    variantSlug := variant.slug
    modelId := variant.modelId
    skillTrigger := req.skillTrigger
    commentText := req.commentText.getD ""
    containerId := none
    status := .pending
    startedAt := none
    completedAt := none
    timeoutMinutes := config.timeoutMinutes
    responseText := none
    responseHtml := none
    branchName := none
    pullRequestUrl := none
    errorMessage := none
    tokensUsed := 0
    estimatedCostUsd := 0
    durationSeconds := none
    createdAt := now
    updatedAt := now }

/-- Endpoint `AgentInvokeEndpoint.post` (`views/invoke.py` lines 34-155), as a pure
function of the store: field validation, provider lookup (enabled), variant
resolution (explicit slug, else first default enabled variant), config and
token checks, the concurrency-cap check, then session creation.  On an
error response the store is returned unchanged. -/
def invokePost (db : Db) (ws : String) (req : InvokeRequest)
    (user newId : String) (now : Nat) : InvokeResult × Db :=
  if ¬ (pyTruthy req.providerSlug ∧ pyTruthy req.projectId ∧ pyTruthy req.issueId)
  then (.err .missingFields, db)
  else
    let ps := req.providerSlug.getD ""
    match db.providers.find? (fun p => p.slug = ps ∧ p.isEnabled) with
    | none => (.err .providerNotFound, db)
    | some provider =>
      let variantRes : Option AgentProviderVariantRec :=
        if pyTruthy req.variantSlug then
          db.variants.find? (fun v =>
            v.providerSlug = provider.slug ∧ v.slug = req.variantSlug.getD ""
              ∧ v.isEnabled)
        else
          (db.variants.filter (fun v =>
            v.providerSlug = provider.slug ∧ v.isDefault ∧ v.isEnabled)).head?
      match variantRes with
      | none =>
          if pyTruthy req.variantSlug then (.err .variantNotFound, db)
          else (.err .noDefaultVariant, db)
      | some variant =>
        match db.configs.find? (fun c =>
          c.workspaceSlug = ws ∧ c.providerSlug = provider.slug ∧ c.isEnabled) with
        | none => (.err .notConfigured, db)
        | some config =>
          if config.oauthTokenEncrypted = "" then (.err .tokenNotConfigured, db)
          else if config.maxConcurrentSessions ≤ activeSessionsCount db ws ps then
            (.err .admissionDenied, db)
          else
            let s := newSession ws req variant config user newId now
            (.created s, { db with sessions := db.sessions ++ [s] })

/-- One user row, as far as migration `0004_reset_user_password.py` sees it. -/
structure UserRec where
  email : String
  password : String
deriving Repr, DecidableEq

/-- Function `reset_password` from
`plane/agent/migrations/0004_reset_user_password.py` (lines 9-16):
`User.objects.get(email="ade@sixzenith.com")` (zero matches raises
`DoesNotExist`, which is caught — no-op; more than one raises
`MultipleObjectsReturned`, uncaught), then
`user.password = make_password("Zenith123$$"); save(update_fields=["password"])`.
The Django hasher `make_password` is passed in as a function. -/
def reset_password (makePassword : String → String) (users : List UserRec) :
    Except PyErr (List UserRec) :=
  match users.filter (fun u => u.email = "ade@sixzenith.com") with
  | [] => .ok users
  | [_] =>
      .ok (users.map (fun u =>
        if u.email = "ade@sixzenith.com" then
          { u with password := makePassword "Zenith123$$" }
        else u))
  | _ => .error (.otherErr "MultipleObjectsReturned")

/-! ### Concrete fixtures used to evaluate the theorems -/

/-- A well-formed invocation request for the `claude` provider. -/
def demoRequest : InvokeRequest :=
  { providerSlug := some "claude"
    projectId := some "proj-1"
    issueId := some "issue-1"
    variantSlug := none
    commentId := none
    skillTrigger := none
    commentText := some "Please fix the bug" }

/-- A default, enabled variant of the `claude` provider. -/
def demoVariant : AgentProviderVariantRec :=
  { providerSlug := "claude", slug := "sonnet", modelId := "model-1"
    isDefault := true, isEnabled := true }

/-- An enabled workspace config with a stored token and cap 3. -/
def demoConfig : WorkspaceAgentConfigRec :=
  { workspaceSlug := "ws-1", providerSlug := "claude", isEnabled := true
    oauthTokenEncrypted := "ct", maxConcurrentSessions := 3
    timeoutMinutes := 15 }

/-- A freshly created (Pending) session, exactly as the invoke endpoint
creates it. -/
def demoSession : Session :=
  newSession "ws-1" demoRequest demoVariant demoConfig "user-1" "sess-1" 0

/-- A session that has already reached a terminal status. -/
def demoTerminalSession : Session :=
  { demoSession with status := .completed, completedAt := some 4 }

/-- The session row after a cancellation that raced a Direct-strategy call:
Pending → Provisioning → Running → Streaming, then the cancel endpoint
stamps Cancelled. -/
def cancelledMidStream : Session :=
  (cancelPost (saveStreamingDirect (saveRunningDirect
    (saveProvisioning demoSession 1))) 5).toOption.getD demoSession

/-- The session row of a sandbox run that started a container and then
finished with exit code 0. -/
def sandboxCompletedRow : Session :=
  finalizeSandbox (saveStreamingSandbox (saveContainerStarted
    (saveProvisioning demoSession 1) "cont-9")) 7 0 "done\nPR_URL=http://pr\n"

/-- The invariant of spec §8: the status is terminal exactly when
`completed_at` is set. -/
def sessionInvariant (s : Session) : Prop :=
  isTerminal s.status = s.completedAt.isSome

/-- A pending session that was cancelled before the worker picked it up. -/
def cancelledBeforePickup : Session :=
  (cancelPost demoSession 2).toOption.getD demoSession

/-- An environment with neither instance key nor environment variables. -/
def envEmpty : LlmEnv := ⟨"", fun _ => ""⟩

/-- An environment carrying only the instance `LLM_API_KEY`. -/
def envWithKey : LlmEnv := ⟨"KEY-2", fun _ => ""⟩

/-- An environment carrying only `ANTHROPIC_API_KEY`. -/
def envAnthropicOnly : LlmEnv :=
  ⟨"", fun k => if k = "ANTHROPIC_API_KEY" then "ENV-3" else ""⟩

/-- A workspace config whose stored ciphertext decrypts (under
`fernetDemo`) to `tok-1`. -/
def cfgWithTok : WorkspaceAgentConfigRec :=
  { demoConfig with oauthTokenEncrypted := "ctok-1" }

/-- The seeded, enabled `claude` provider row. -/
def claudeProvider : AgentProviderRec :=
  { slug := "claude", isEnabled := true, cliTool := "claude"
    dockerImage := "agent-img" }

/-- A store with the `claude` provider, its default variant, an enabled
config, and no sessions yet. -/
def dbEmptySessions : Db :=
  { providers := [claudeProvider], variants := [demoVariant]
    configs := [demoConfig], sessions := [] }

/-- A running session of (ws-1, claude), occupying one active slot. -/
def activeRow (i : String) : Session :=
  { demoSession with id := i, status := .running }

/-- Three active sessions for (ws-1, claude): the cap of `demoConfig`. -/
def dbThreeActive : Db :=
  { providers := [claudeProvider], variants := [demoVariant]
    configs := [demoConfig]
    sessions := [activeRow "a1", activeRow "a2", activeRow "a3"] }

/-- The same store after the cancel endpoint processed session `a3`. -/
def dbTwoActive : Db :=
  { dbThreeActive with sessions := [activeRow "a1", activeRow "a2",
      (cancelPost (activeRow "a3") 9).toOption.getD (activeRow "a3")] }

/-! ### Claims -/

/-- C7: for every non-empty token string `t`,
`decrypt_token (encrypt_token t) = t`, and `encrypt_token ""` is the empty
string (identity case) rather than a ciphertext of the empty plaintext. -/
theorem encrypt_decrypt_roundtrip (F : FernetSpec) (t : String) (h : t ≠ "") :
    decrypt_token F (encrypt_token F t) = .ok t ∧ encrypt_token F "" = "" := by
  refine ⟨?_, rfl⟩
  unfold encrypt_token decrypt_token
  rw [if_neg h, if_neg (F.encB_ne t), F.dec_enc]

theorem encrypt_decrypt_roundtrip_witness :
    decrypt_token fernetDemo (encrypt_token fernetDemo "tok-123") = .ok "tok-123"
      ∧ encrypt_token fernetDemo "" = "" :=
  encrypt_decrypt_roundtrip fernetDemo "tok-123" (by decide)

/-- C5: decrypting a non-empty string that is not a valid token under the
key (corrupt, or minted under a different key) yields the decryption-failure
exception, never a silently returned string; and that failure reaches the
client only as an empty message — the stored `error_message` and the relay
`error` chunk carry `str(InvalidToken()) = ""`, so the failure is not
exposed verbatim. -/
theorem decrypt_fails_closed (F : FernetSpec) (c : String) (hc : c ≠ "")
    (hbad : F.decB c = none) :
    decrypt_token F c = .error .invalidToken
      ∧ (∀ (s : Session) (now : Nat),
          (finalizeFailure s now .invalidToken).errorMessage = some "")
      ∧ failureChunks .invalidToken = [("error", ""), ("done", "")] := by
  refine ⟨?_, fun s now => ?_, ?_⟩
  · unfold decrypt_token
    rw [if_neg hc, hbad]
  · simp [finalizeFailure, pyErrMessage, String.take_eq]
  · simp [failureChunks, pyErrMessage, String.take_eq]

theorem decrypt_fails_closed_witness :
    decrypt_token fernetDemo "zz" = .error .invalidToken
      ∧ (∀ (s : Session) (now : Nat),
          (finalizeFailure s now .invalidToken).errorMessage = some "")
      ∧ failureChunks .invalidToken = [("error", ""), ("done", "")] :=
  decrypt_fails_closed fernetDemo "zz" (by decide) (by decide)

/-- If no user carries the target email, the migration's rewrite of the user
table is the identity map. -/
theorem map_reset_id (makePassword : String → String) (users : List UserRec)
    (hnone : ∀ u ∈ users, ¬ (u.email = "ade@sixzenith.com")) :
    users.map (fun u =>
      if u.email = "ade@sixzenith.com" then
        { u with password := makePassword "Zenith123$$" }
      else u) = users := by
  induction users with
  | nil => rfl
  | cons a l ih =>
      have ha := hnone a (List.mem_cons_self a l)
      have hl : ∀ u ∈ l, ¬ (u.email = "ade@sixzenith.com") := fun u hu =>
        hnone u (List.mem_cons_of_mem a hu)
      simp only [List.map_cons, if_neg ha, ih hl]

/-- C2: migration 0004 resets the password of the user whose email is
`ade@sixzenith.com` to `make_password("Zenith123$$")` whenever such a user
exists, and changes no other user; with no such user the table is unchanged.
(The hypothesis is the users table's unique-email constraint.) -/
theorem migration_resets_only_target_password (makePassword : String → String)
    (users : List UserRec)
    (h : (users.filter (fun u => u.email = "ade@sixzenith.com")).length ≤ 1) :
    reset_password makePassword users =
      .ok (users.map (fun u =>
        if u.email = "ade@sixzenith.com" then
          { u with password := makePassword "Zenith123$$" }
        else u)) := by
  unfold reset_password
  cases hf : users.filter (fun u => u.email = "ade@sixzenith.com") with
  | nil =>
      have hnone : ∀ u ∈ users, ¬ (u.email = "ade@sixzenith.com") := by
        intro u hu
        have := List.filter_eq_nil_iff.mp hf u hu
        simpa using this
      rw [map_reset_id makePassword users hnone]
  | cons a tl =>
      cases tl with
      | nil => rfl
      | cons b tl2 =>
          exfalso
          rw [hf] at h
          simp at h

theorem migration_resets_only_target_password_witness :
    ((([⟨"ade@sixzenith.com", "old-secret"⟩, ⟨"other@example.com", "keep"⟩] :
        List UserRec).filter
        (fun u => u.email = "ade@sixzenith.com")).length ≤ 1)
    ∧ reset_password (fun p => String.mk ('#' :: p.data))
        [⟨"ade@sixzenith.com", "old-secret"⟩, ⟨"other@example.com", "keep"⟩] =
      .ok [⟨"ade@sixzenith.com", "#Zenith123$$"⟩, ⟨"other@example.com", "keep"⟩] :=
  ⟨by decide, by
    rw [migration_resets_only_target_password (fun p => String.mk ('#' :: p.data))
      [⟨"ade@sixzenith.com", "old-secret"⟩, ⟨"other@example.com", "keep"⟩] (by decide)]
    rfl⟩

/-- Helper `jsonOptStr` renders distinct column values distinctly. -/
theorem jsonOptStr_injective (a b : Option String)
    (h : jsonOptStr a = jsonOptStr b) : a = b := by
  cases a <;> cases b <;> simp_all [jsonOptStr]

/-- C3 counterexample: two sessions identical except in `container_id`
serialize to different responses — the session detail endpoint's output does
observe `container_id`. -/
theorem serializer_reveals_container_id :
    demoSession.containerId = none ∧
    serializeAgentSession { demoSession with containerId := some "cont-1" } ≠
      serializeAgentSession demoSession := by
  refine ⟨rfl, ?_⟩
  decide

/-- C3 (amended): session responses DO reveal the sandbox execution handle:
`container_id` is among the serialized fields (it is read-only, not hidden),
and the serialized response determines `container_id` — equal responses force
equal handles. -/
theorem container_id_observable (s s₂ : Session)
    (h : serializeAgentSession s = serializeAgentSession s₂) :
    s.containerId = s₂.containerId ∧
    ("container_id", jsonOptStr s.containerId) ∈ serializeAgentSession s := by
  constructor
  · have h12 : (serializeAgentSession s)[11]? = (serializeAgentSession s₂)[11]? := by
      rw [h]
    simp only [serializeAgentSession, List.getElem?_cons_succ,
      List.getElem?_cons_zero, Option.some.injEq, Prod.mk.injEq, true_and] at h12
    exact jsonOptStr_injective _ _ h12
  · simp [serializeAgentSession]

theorem container_id_observable_witness :
    demoSession.containerId = demoSession.containerId ∧
    ("container_id", jsonOptStr demoSession.containerId) ∈
      serializeAgentSession demoSession :=
  container_id_observable demoSession demoSession rfl

/-- The eight statuses split exactly into the active set and the terminal
set: the cancel guard's `active_statuses` is the complement of terminal. -/
theorem active_iff_not_terminal (st : Status) :
    statusIsActive st = !isTerminal st := by
  cases st <;> rfl

/-- C1 counterexample: a session cancelled while the Direct-strategy call is
still streaming is in the terminal status Cancelled, yet the supervisor's
final save then overwrites it to Completed. -/
theorem cancelled_overwritten_by_final_save :
    cancelledMidStream.status = Status.cancelled ∧
    isTerminal cancelledMidStream.status = true ∧
    (finalizeDirectSuccess cancelledMidStream 9 "All done.").status =
      Status.completed := by
  refine ⟨rfl, rfl, rfl⟩

/-- C1 (amended): the cancellation endpoint never changes a terminal
session — it rejects with the already-terminal error; but the supervisor's
finalization saves are unguarded: the Direct-strategy success save sets
Completed and the top-level failure save sets Failed whatever the stored
status is, so a Cancelled status stamped while a Direct-strategy call is
still streaming is later overwritten. -/
theorem terminal_status_overwrite (s : Session) (now now₂ : Nat)
    (full : String) (e : PyErr) (h : isTerminal s.status = true) :
    cancelPost s now = .error .alreadyTerminal ∧
    (finalizeDirectSuccess s now₂ full).status = Status.completed ∧
    (finalizeFailure s now₂ e).status = Status.failed := by
  refine ⟨?_, rfl, rfl⟩
  unfold cancelPost
  rw [if_neg]
  rw [active_iff_not_terminal, h]
  simp

theorem terminal_status_overwrite_witness :
    cancelPost demoTerminalSession 6 = .error .alreadyTerminal ∧
    (finalizeDirectSuccess demoTerminalSession 7 "late").status =
      Status.completed ∧
    (finalizeFailure demoTerminalSession 7 (.otherErr "boom")).status =
      Status.failed :=
  terminal_status_overwrite demoTerminalSession 6 7 "late" (.otherErr "boom")
    (by decide)

/-- C4 counterexample: after a sandbox execution ends (terminal Completed),
the stored execution handle is NOT cleared — `container_id` still holds the
container reference. -/
theorem container_id_not_cleared :
    isTerminal sandboxCompletedRow.status = true ∧
    sandboxCompletedRow.containerId = some "cont-9" := by
  refine ⟨rfl, rfl⟩

/-- C4 (amended): no finalizing operation modifies `container_id` at all —
sandbox completion, Direct-strategy completion, the top-level failure
handler, and cancellation each leave `container_id` exactly as it was, so a
sandbox session keeps its handle after execution ends (the field is null
after termination only when no sandbox container was ever started). -/
theorem finalization_preserves_container_id (s : Session) (now : Nat)
    (exitCode : Int) (full : String) (e : PyErr) (s₂ : Session)
    (hc : cancelPost s now = .ok s₂) :
    (finalizeSandbox s now exitCode full).containerId = s.containerId ∧
    (finalizeDirectSuccess s now full).containerId = s.containerId ∧
    (finalizeFailure s now e).containerId = s.containerId ∧
    s₂.containerId = s.containerId := by
  refine ⟨rfl, rfl, rfl, ?_⟩
  unfold cancelPost at hc
  by_cases ha : statusIsActive s.status = true
  · rw [if_pos ha] at hc
    cases hc
    rfl
  · rw [if_neg ha] at hc
    exact absurd hc (by simp)

theorem finalization_preserves_container_id_witness :
    (finalizeSandbox demoSession 7 0 "out").containerId = demoSession.containerId ∧
    (finalizeDirectSuccess demoSession 7 "out").containerId = demoSession.containerId ∧
    (finalizeFailure demoSession 7 (.otherErr "x")).containerId = demoSession.containerId ∧
    ({ demoSession with status := .cancelled, completedAt := some 7 } : Session).containerId
      = demoSession.containerId :=
  finalization_preserves_container_id demoSession 7 0 "out" (.otherErr "x")
    { demoSession with status := .cancelled, completedAt := some 7 } (by rfl)

/-- C6 counterexample: cancelling a Pending session and then letting the
already-enqueued worker perform its provisioning save (which updates only
`status` and `started_at`) leaves a non-terminal status with `completed_at`
still set — the invariant fails after that orchestrator operation. -/
theorem invariant_broken_by_provisioning_after_cancel :
    isTerminal (saveProvisioning cancelledBeforePickup 3).status = false ∧
    (saveProvisioning cancelledBeforePickup 3).completedAt.isSome = true := by
  refine ⟨rfl, rfl⟩

/-- C6 (amended): the terminal ⇔ `completed_at` invariant holds after
creation, after every finalization (Direct success, sandbox completion or
failure, top-level failure), and after cancellation, unconditionally; the
provisioning save preserves it only when the session is not already
terminal — a cancellation that lands before the worker's provisioning save
transiently breaks the invariant until finalization restores it. -/
theorem status_completed_at_invariant
    (ws : String) (req : InvokeRequest) (variant : AgentProviderVariantRec)
    (config : WorkspaceAgentConfigRec) (user newId : String)
    (nowCr nowPr nowFin nowCan : Nat)
    (s : Session) (full : String) (exitCode : Int) (e : PyErr) (s₂ : Session)
    (hactive : isTerminal s.status = false) (hinv : sessionInvariant s)
    (hc : cancelPost s nowCan = .ok s₂) :
    sessionInvariant (newSession ws req variant config user newId nowCr) ∧
    sessionInvariant (saveProvisioning s nowPr) ∧
    sessionInvariant (finalizeDirectSuccess s nowFin full) ∧
    sessionInvariant (finalizeSandbox s nowFin exitCode full) ∧
    sessionInvariant (finalizeFailure s nowFin e) ∧
    sessionInvariant s₂ := by
  refine ⟨rfl, ?_, rfl, ?_, rfl, ?_⟩
  · unfold sessionInvariant at hinv ⊢
    unfold saveProvisioning
    rw [hactive] at hinv
    simp only
    rw [← hinv]
    rfl
  · unfold sessionInvariant finalizeSandbox
    by_cases hz : exitCode = 0
    · rw [if_pos hz]
      rfl
    · rw [if_neg hz]
      rfl
  · unfold cancelPost at hc
    rw [active_iff_not_terminal, hactive] at hc
    simp only [Bool.not_false, if_true] at hc
    cases hc
    rfl

theorem status_completed_at_invariant_witness :
    sessionInvariant (newSession "ws-1" demoRequest demoVariant demoConfig
      "user-1" "sess-1" 0) ∧
    sessionInvariant (saveProvisioning demoSession 1) ∧
    sessionInvariant (finalizeDirectSuccess demoSession 4 "out") ∧
    sessionInvariant (finalizeSandbox demoSession 4 1 "out") ∧
    sessionInvariant (finalizeFailure demoSession 4 (.otherErr "x")) ∧
    sessionInvariant
      ({ demoSession with status := .cancelled, completedAt := some 2 } : Session) :=
  status_completed_at_invariant "ws-1" demoRequest demoVariant demoConfig
    "user-1" "sess-1" 0 1 4 2 demoSession "out" 1 (.otherErr "x")
    { demoSession with status := .cancelled, completedAt := some 2 }
    (by rfl) (by rfl) (by rfl)

/-- C10: `_get_llm_token` resolves the model-provider secret in priority
order — (a) the workspace config's decrypted stored token when present and
non-empty; an absent stored token behaves exactly like an absent config;
(b) else the instance `LLM_API_KEY`; (c) else the provider-keyed environment
variable (`ANTHROPIC_API_KEY` for `claude`, `GOOGLE_API_KEY` for `gemini`);
and when none resolve it returns `""`, in which case the Direct strategy is
skipped (`usesDirectStrategy` is false, so the sandbox branch runs). -/
theorem llm_token_priority (F : FernetSpec) (c : WorkspaceAgentConfigRec)
    (env : LlmEnv) (p t : String) :
    (c.oauthTokenEncrypted ≠ "" →
      decrypt_token F c.oauthTokenEncrypted = .ok t → t ≠ "" →
      get_llm_token F p (some c) env = .ok t)
    ∧ (c.oauthTokenEncrypted = "" →
      get_llm_token F p (some c) env = get_llm_token F p none env)
    ∧ (env.llmApiKey ≠ "" →
      get_llm_token F p none env = .ok env.llmApiKey)
    ∧ (env.llmApiKey = "" →
      get_llm_token F "claude" none env = .ok (env.envVar "ANTHROPIC_API_KEY")
      ∧ get_llm_token F "gemini" none env = .ok (env.envVar "GOOGLE_API_KEY"))
    ∧ (env.llmApiKey = "" → env.envVar "ANTHROPIC_API_KEY" = "" →
      get_llm_token F "claude" none env = .ok ""
      ∧ usesDirectStrategy "claude" "" = false) := by
  refine ⟨?_, ?_, ?_, ?_, ?_⟩
  · intro h1 h2 h3
    simp only [get_llm_token, if_pos h1, h2, if_pos h3]
  · intro h1
    have hno : ¬ (c.oauthTokenEncrypted ≠ "") := by simp [h1]
    simp only [get_llm_token, if_neg hno]
  · intro h1
    simp only [get_llm_token, if_pos h1]
  · intro h1
    have hk : ¬ (env.llmApiKey ≠ "") := by simp [h1]
    exact ⟨by simp only [get_llm_token, if_neg hk]; rfl,
           by simp only [get_llm_token, if_neg hk]; rfl⟩
  · intro h1 h2
    have hk : ¬ (env.llmApiKey ≠ "") := by simp [h1]
    refine ⟨?_, rfl⟩
    simp only [get_llm_token, if_neg hk, h2]
    rfl

theorem llm_token_priority_witness :
    get_llm_token fernetDemo "claude" (some cfgWithTok) envWithKey = .ok "tok-1"
    ∧ get_llm_token fernetDemo "claude"
        (some { demoConfig with oauthTokenEncrypted := "" }) envWithKey = .ok "KEY-2"
    ∧ get_llm_token fernetDemo "claude" none envAnthropicOnly = .ok "ENV-3"
    ∧ get_llm_token fernetDemo "claude" none envEmpty = .ok ""
    ∧ usesDirectStrategy "claude" "" = false :=
  ⟨(llm_token_priority fernetDemo cfgWithTok envWithKey "claude" "tok-1").1
      (by decide) (by rfl) (by decide),
   ((llm_token_priority fernetDemo { demoConfig with oauthTokenEncrypted := "" }
        envWithKey "claude" "tok-1").2.1 rfl).trans
     ((llm_token_priority fernetDemo cfgWithTok envWithKey "claude" "tok-1").2.2.1
        (by decide)),
   ((llm_token_priority fernetDemo cfgWithTok envAnthropicOnly "claude"
        "tok-1").2.2.2.1 rfl).1,
   ((llm_token_priority fernetDemo cfgWithTok envEmpty "claude"
        "tok-1").2.2.2.2 rfl rfl).1,
   ((llm_token_priority fernetDemo cfgWithTok envEmpty "claude"
        "tok-1").2.2.2.2 rfl rfl).2⟩

/-- C8: with an explicit `variant_slug`, the named variant must exist, be
enabled and belong to the resolved provider, else the request fails 404 with
no session created; with `variant_slug` omitted, the provider's first
default enabled variant is selected, and if none exists the invocation
fails 404 (`NoDefaultVariant`) with no session created. -/
theorem variant_resolution (db : Db) (ws : String) (req : InvokeRequest)
    (user newId : String) (now : Nat) (provider : AgentProviderRec)
    (hfields : pyTruthy req.providerSlug ∧ pyTruthy req.projectId
      ∧ pyTruthy req.issueId)
    (hp : db.providers.find? (fun p => p.slug = req.providerSlug.getD ""
      ∧ p.isEnabled) = some provider) :
    (pyTruthy req.variantSlug = true →
      db.variants.find? (fun v => v.providerSlug = provider.slug
        ∧ v.slug = req.variantSlug.getD "" ∧ v.isEnabled) = none →
      invokePost db ws req user newId now = (.err .variantNotFound, db)
        ∧ invokeHttpStatus .variantNotFound = 404)
    ∧ (pyTruthy req.variantSlug = false →
      (db.variants.filter (fun v => v.providerSlug = provider.slug
        ∧ v.isDefault ∧ v.isEnabled)).head? = none →
      invokePost db ws req user newId now = (.err .noDefaultVariant, db)
        ∧ invokeHttpStatus .noDefaultVariant = 404)
    ∧ (∀ (variant : AgentProviderVariantRec) (config : WorkspaceAgentConfigRec),
      pyTruthy req.variantSlug = false →
      (db.variants.filter (fun v => v.providerSlug = provider.slug
        ∧ v.isDefault ∧ v.isEnabled)).head? = some variant →
      db.configs.find? (fun cg => cg.workspaceSlug = ws
        ∧ cg.providerSlug = provider.slug ∧ cg.isEnabled) = some config →
      config.oauthTokenEncrypted ≠ "" →
      activeSessionsCount db ws (req.providerSlug.getD "")
        < config.maxConcurrentSessions →
      invokePost db ws req user newId now =
        (.created (newSession ws req variant config user newId now),
          { db with sessions :=
            db.sessions ++ [newSession ws req variant config user newId now] })
        ∧ (newSession ws req variant config user newId now).variantSlug
            = variant.slug) := by
  refine ⟨fun hv hfind => ⟨?_, rfl⟩, fun hv hdef => ⟨?_, rfl⟩,
    fun variant config hv hdef hcfg htok hcap => ⟨?_, rfl⟩⟩
  · simp only [invokePost, if_neg (not_not_intro hfields), hp, if_pos hv, hfind]
  · have hv' : ¬ (pyTruthy req.variantSlug = true) := by simp [hv]
    simp only [invokePost, if_neg (not_not_intro hfields), hp, if_neg hv', hdef]
  · have hv' : ¬ (pyTruthy req.variantSlug = true) := by simp [hv]
    have hcap' : ¬ (config.maxConcurrentSessions
        ≤ activeSessionsCount db ws (req.providerSlug.getD "")) :=
      Nat.not_le.mpr hcap
    simp only [invokePost, if_neg (not_not_intro hfields), hp, if_neg hv', hdef,
      hcfg, if_neg htok, if_neg hcap']

theorem variant_resolution_witness :
    invokePost dbEmptySessions "ws-1"
      { demoRequest with variantSlug := some "opus" } "user-1" "new-1" 10
      = (.err .variantNotFound, dbEmptySessions)
    ∧ invokePost { dbEmptySessions with variants := [] } "ws-1" demoRequest
        "user-1" "new-1" 10
      = (.err .noDefaultVariant, { dbEmptySessions with variants := [] })
    ∧ invokePost dbEmptySessions "ws-1" demoRequest "user-1" "new-1" 10
      = (.created (newSession "ws-1" demoRequest demoVariant demoConfig
            "user-1" "new-1" 10),
         { dbEmptySessions with sessions := dbEmptySessions.sessions
            ++ [newSession "ws-1" demoRequest demoVariant demoConfig
                  "user-1" "new-1" 10] })
    ∧ (newSession "ws-1" demoRequest demoVariant demoConfig
        "user-1" "new-1" 10).variantSlug = "sonnet" :=
  ⟨((variant_resolution dbEmptySessions "ws-1"
      { demoRequest with variantSlug := some "opus" } "user-1" "new-1" 10
      claudeProvider (by decide) (by rfl)).1 (by rfl) (by rfl)).1,
   ((variant_resolution { dbEmptySessions with variants := [] } "ws-1"
      demoRequest "user-1" "new-1" 10 claudeProvider (by decide) (by rfl)).2.1
      (by rfl) (by rfl)).1,
   ((variant_resolution dbEmptySessions "ws-1" demoRequest "user-1" "new-1" 10
      claudeProvider (by decide) (by rfl)).2.2 demoVariant demoConfig
      (by rfl) (by rfl) (by rfl) (by decide) (by decide)).1,
   ((variant_resolution dbEmptySessions "ws-1" demoRequest "user-1" "new-1" 10
      claudeProvider (by decide) (by rfl)).2.2 demoVariant demoConfig
      (by rfl) (by rfl) (by rfl) (by decide) (by decide)).2⟩

/-- C9: with all earlier checks passed, the invoke endpoint compares the
count of this workspace-and-provider's sessions in the active set
{Pending, Provisioning, Running, Streaming} to the config's
`max_concurrent_sessions`: at or above the cap it fails with the 429
admission error and creates nothing; below the cap it creates exactly one
Pending session.  Cancelled is not in the active set, and the session
written by a successful cancellation is outside the active set. -/
theorem admission_control (db : Db) (ws : String) (req : InvokeRequest)
    (user newId : String) (now : Nat) (provider : AgentProviderRec)
    (variant : AgentProviderVariantRec) (config : WorkspaceAgentConfigRec)
    (hfields : pyTruthy req.providerSlug ∧ pyTruthy req.projectId
      ∧ pyTruthy req.issueId)
    (hp : db.providers.find? (fun p => p.slug = req.providerSlug.getD ""
      ∧ p.isEnabled) = some provider)
    (hvr : (if pyTruthy req.variantSlug then
        db.variants.find? (fun v => v.providerSlug = provider.slug
          ∧ v.slug = req.variantSlug.getD "" ∧ v.isEnabled)
      else (db.variants.filter (fun v => v.providerSlug = provider.slug
          ∧ v.isDefault ∧ v.isEnabled)).head?) = some variant)
    (hcfg : db.configs.find? (fun cg => cg.workspaceSlug = ws
      ∧ cg.providerSlug = provider.slug ∧ cg.isEnabled) = some config)
    (htok : config.oauthTokenEncrypted ≠ "") :
    (config.maxConcurrentSessions
        ≤ activeSessionsCount db ws (req.providerSlug.getD "") →
      invokePost db ws req user newId now = (.err .admissionDenied, db)
      ∧ invokeHttpStatus .admissionDenied = 429)
    ∧ (activeSessionsCount db ws (req.providerSlug.getD "")
        < config.maxConcurrentSessions →
      invokePost db ws req user newId now =
        (.created (newSession ws req variant config user newId now),
         { db with sessions :=
            db.sessions ++ [newSession ws req variant config user newId now] })
      ∧ (newSession ws req variant config user newId now).status = .pending)
    ∧ statusIsActive Status.cancelled = false
    ∧ (∀ (sAct sCan : Session) (nowC : Nat),
        cancelPost sAct nowC = .ok sCan → statusIsActive sCan.status = false) := by
  refine ⟨fun hge => ⟨?_, rfl⟩, fun hlt => ⟨?_, rfl⟩, rfl, ?_⟩
  · simp only [invokePost, if_neg (not_not_intro hfields), hp, hvr, hcfg,
      if_neg htok, if_pos hge]
  · simp only [invokePost, if_neg (not_not_intro hfields), hp, hvr, hcfg,
      if_neg htok, if_neg (Nat.not_le.mpr hlt)]
  · intro sAct sCan nowC hc
    unfold cancelPost at hc
    by_cases hact : statusIsActive sAct.status = true
    · rw [if_pos hact] at hc
      cases hc
      rfl
    · rw [if_neg hact] at hc
      exact absurd hc (by simp)

theorem admission_control_witness :
    invokePost dbThreeActive "ws-1" demoRequest "user-1" "new-1" 10
      = (.err .admissionDenied, dbThreeActive)
    ∧ invokeHttpStatus .admissionDenied = 429
    ∧ invokePost dbTwoActive "ws-1" demoRequest "user-1" "new-1" 10
      = (.created (newSession "ws-1" demoRequest demoVariant demoConfig
            "user-1" "new-1" 10),
         { dbTwoActive with sessions := dbTwoActive.sessions
            ++ [newSession "ws-1" demoRequest demoVariant demoConfig
                  "user-1" "new-1" 10] })
    ∧ (newSession "ws-1" demoRequest demoVariant demoConfig
        "user-1" "new-1" 10).status = .pending
    ∧ statusIsActive Status.cancelled = false :=
  ⟨((admission_control dbThreeActive "ws-1" demoRequest "user-1" "new-1" 10
      claudeProvider demoVariant demoConfig (by decide) (by rfl) (by rfl)
      (by rfl) (by decide)).1 (by decide)).1,
   rfl,
   ((admission_control dbTwoActive "ws-1" demoRequest "user-1" "new-1" 10
      claudeProvider demoVariant demoConfig (by decide) (by rfl) (by rfl)
      (by rfl) (by decide)).2.1 (by decide)).1,
   ((admission_control dbTwoActive "ws-1" demoRequest "user-1" "new-1" 10
      claudeProvider demoVariant demoConfig (by decide) (by rfl) (by rfl)
      (by rfl) (by decide)).2.1 (by decide)).2,
   (admission_control dbThreeActive "ws-1" demoRequest "user-1" "new-1" 10
      claudeProvider demoVariant demoConfig (by decide) (by rfl) (by rfl)
      (by rfl) (by decide)).2.2.1⟩

end ZenithAgent
